import Mathlib

/-!
Shallow embedding of `cloud/sw_deployment/docker_management.py`
(class `DockerManagement`), which replicates docker images between two
registries, optionally obtaining credentials for AWS ECR or Azure ACR.

Modelling conventions:
- The mutable attributes of the `DockerManagement` object become the
  explicit state `DMState`; each method maps a state to a new state
  together with a trace of the externally visible docker / CLI / console
  actions it performs (`DockerEvent`).
- External effects whose results the code branches on are supplied by an
  oracle record `Env`: the result of `validators.url`, the outcome of
  parsing the local AWS credentials file, the (already base64-decoded)
  ECR authorization token, the Azure access token, the boolean returned
  by the docker `image.tag` call, and the log strings returned by pull
  and push.
- Python exceptions that escape a method are modelled as a `PyError`
  value in the result (`attributeError` for reading the never-assigned
  `self.from_registry`, `typeError` for subscripting the `None` returned
  by a failed `tag_image`, `keyError` for a missing section or key in the
  credentials file, which the code does not catch).
- Python's `str.replace` (which replaces every non-overlapping occurrence
  left to right) is modelled by `pyReplace` below, defined on character
  lists with an explicit fuel so that it is structurally recursive and
  kernel-evaluable.  It is only used with nonempty patterns, as in the
  source.
-/

/-- One step of Python `str.replace` semantics on character lists: scan left
to right, and at each position either replace a nonoverlapping occurrence of
`pat` by `rep` or keep the character.  `fuel` bounds the recursion depth; any
`fuel ≥ l.length` gives the exact Python behavior for nonempty `pat`. -/
def replaceFuel (pat rep : List Char) : Nat → List Char → List Char
  | _, [] => []
  | 0, l => l
  | fuel + 1, c :: rest =>
    if pat.isPrefixOf (c :: rest) then
      rep ++ replaceFuel pat rep fuel (List.drop (pat.length - 1) rest)
    else
      c :: replaceFuel pat rep fuel rest

/-- `hasOccur pat l` is true iff `pat` occurs as a contiguous sublist of `l`. -/
def hasOccur (pat : List Char) : List Char → Bool
  | [] => pat.isPrefixOf []
  | c :: rest => pat.isPrefixOf (c :: rest) || hasOccur pat rest

/-- Model of Python `s.replace(pat, rep)` for nonempty `pat`: every
non-overlapping occurrence of `pat` in `s` is replaced by `rep`, scanning left
to right.  (The source only calls `replace` with the nonempty patterns
`'https:\x2f\x2f'`, `'\x2f'`, `':'` and `b'AWS:'`.) -/
def pyReplace (s pat rep : String) : String :=
  if pat.data.isEmpty then s
  else String.mk (replaceFuel pat.data rep.data s.data.length s.data)

/-- The dictionary `\x7b'repository': ..., 'tag': ...\x7d` returned by a
successful `tag_image`. -/
structure TaggedImage where
  repository : String
  tag : String
deriving DecidableEq, Repr

/-- Python exceptions that can escape the modelled methods. -/
inductive PyError where
  /-- Reading `self.from_registry` when `__init__` returned early without
  assigning it. -/
  | attributeError
  /-- Subscripting the `None` returned by a failed `tag_image`. -/
  | typeError
  /-- `config` has no `default` section or the section lacks a key;
  `configparser` raises `KeyError`, which the code does not catch. -/
  | keyError
deriving DecidableEq, Repr

/-- Externally visible actions performed against the docker client, the
cloud APIs, the `az` CLI, and the console. -/
inductive DockerEvent where
  /-- `docker_client.login(username=..., password=..., registry=...)`. -/
  | login (username password registry : Option String)
  /-- `docker_client.images.pull(ref)`. -/
  | pull (ref : String)
  /-- `docker_client.images.get(ref)` inside `tag_image`. -/
  | getImage (ref : String)
  /-- `image.tag(target, tag)` on the image fetched from `source`. -/
  | tagOp (source target tag : String)
  /-- `docker_client.images.push(repo, tag=tag, auth_config=auth)`;
  `auth` is the `(username, password)` pair when credentials are attached. -/
  | push (repo tag : String) (auth : Option (String × String))
  /-- `click.echo msg`. -/
  | echo (msg : String)
  /-- `click.secho msg` (error reporting). -/
  | secho (msg : String)
  /-- `click.echo` of the `Images to replicate:` line with the image list. -/
  | echoImages (images : List String)
  /-- Reading `~/.aws/credentials` via `configparser`. -/
  | awsCredRead
  /-- `ecr_client.get_authorization_token()` via the boto3 session. -/
  | ecrGetToken
  /-- The `az acr login` subprocess invocation with its command line. -/
  | azLoginCmd (cmd : String)
deriving DecidableEq, Repr

/-- The mutable attributes of a `DockerManagement` object.  `from_registry`
is an `Option` because `__init__` assigns it only after URL validation;
reading it while unassigned raises `AttributeError`. -/
structure DMState where
  cloud : Option String
  aws_region : String
  aws_access_key_id : Option String
  aws_access_secret_key : Option String
  cr_password : Option String
  cr_username : Option String
  cr_url : Option String
  show_log : Bool
  to_registry : String
  images_to_replicate : List String
  tagged_images : List (Option TaggedImage)
  from_registry : Option String
deriving DecidableEq, Repr

/-- The constructor arguments of `DockerManagement.__init__`. -/
structure DMConfig where
  from_registry : String
  to_registry : String
  images_to_replicate : List String
  region : String
  cloud : Option String
  show_log : Bool
deriving DecidableEq, Repr

/-- Outcome of reading and indexing the local AWS credentials file:
either both keys are found, or `configparser` raises `ParsingError`
(caught by the code), or a section/key is missing (`KeyError`, not caught). -/
inductive AwsParse where
  | parsed (keyId secret : String)
  | parsingError (msg : String)
  | sectionMissing
deriving DecidableEq, Repr

/-- Oracle for the external world: results of library and network calls the
code branches on or stores. -/
structure Env where
  /-- Truthiness of `validators.url(from_registry)`. -/
  urlValid : Bool
  /-- Outcome of parsing `~/.aws/credentials`. -/
  awsParse : AwsParse
  /-- The base64-decoded ECR authorization token (the code then strips
  every `AWS:` occurrence from it). -/
  ecrDecodedToken : String
  /-- The `accessToken` field of the `az acr login` JSON output. -/
  azAccessToken : String
  /-- Result of `image.tag(target, tag)` for the image previously fetched
  as `source`. -/
  tagOk : String → String → String → Bool
  /-- Log string returned by `docker_client.images.pull`. -/
  pullLog : String
  /-- Log string returned by `docker_client.images.push`. -/
  pushLog : String

/-- Result of running a (possibly raising) method: the state after the
side effects that did happen, the trace of events, and the escaped Python
exception, if any. -/
structure StepResult where
  st : DMState
  trace : List DockerEvent
  err : Option PyError
deriving DecidableEq, Repr

/-- `pull_image`: if at least one of `username`/`password` is not `None`,
log in first; in both branches fetch `registry_url/image_name` and echo the
output. -/
def pull_image (env : Env) (registry_url image_name : String)
    (username password : Option String) : List DockerEvent :=
  if ¬(username = none ∧ password = none) then
    [DockerEvent.login username password (some registry_url),
     DockerEvent.pull (registry_url ++ "/" ++ image_name),
     DockerEvent.echo env.pullLog]
  else
    [DockerEvent.pull (registry_url ++ "/" ++ image_name),
     DockerEvent.echo env.pullLog]

/-- The target `(repository, tag)` pair computed inside `tag_image`:
for AWS, the repository is the destination registry itself and the tag is
the image name with `'\x2f'` and `':'` each replaced by `'-'`; otherwise the
repository is `registry_new/image_name` and the tag is `latest`. -/
def derive_target (cloud : Option String) (image_name registry_new : String) :
    String × String :=
  if cloud = some "aws" then
    (registry_new, pyReplace (pyReplace image_name "/" "-") ":" "-")
  else
    (registry_new ++ "/" ++ image_name, "latest")

/-- `tag_image`: fetch the local image `registry_old/image_name`, derive the
target reference, apply the tag.  Returns the events together with the
Python return value: the `TaggedImage` dictionary when `image.tag` returned a
truthy value, and `None` (here `none`) otherwise. -/
def tag_image (env : Env) (st : DMState)
    (image_name registry_old registry_new : String) :
    List DockerEvent × Option TaggedImage :=
  let srcRef := registry_old ++ "/" ++ image_name
  let target := derive_target st.cloud image_name registry_new
  ([DockerEvent.getImage srcRef, DockerEvent.tagOp srcRef target.1 target.2],
   if env.tagOk srcRef target.1 target.2 then
     some { repository := target.1, tag := target.2 }
   else none)

/-- `push_image`: echo `Pushing image:`; when registry, username and
password are all not `None`, log in and build `auth_config`; the actual
`images.push` call (and the echo of its log, done when `show_log` is false)
happens only when `auth_config` was set — with any of the three missing the
method performs no push at all. -/
def push_image (env : Env) (st : DMState) (image tag : String)
    (registry username password : Option String) : List DockerEvent :=
  match registry, username, password with
  | some r, some u, some p =>
    [DockerEvent.echo "Pushing image:",
     DockerEvent.login (some u) (some p) (some r),
     DockerEvent.push image tag (some (u, p))] ++
    (if st.show_log then [] else [DockerEvent.echo env.pushLog])
  | _, _, _ => [DockerEvent.echo "Pushing image:"]

/-- One iteration of the `copy_images` loop: pull from `self.from_registry`
(raising `AttributeError` if `__init__` never assigned it), tag, append the
raw return value to `tagged_images`, then push `new_image['repository']` —
which raises `TypeError` when `tag_image` returned `None`. -/
def copy_step (env : Env) (st : DMState) (image : String) : StepResult :=
  match st.from_registry with
  | none => { st := st, trace := [], err := some PyError.attributeError }
  | some fromReg =>
    let ev1 := pull_image env fromReg image none none
    let tr := tag_image env st image fromReg st.to_registry
    let st1 := { st with tagged_images := st.tagged_images ++ [tr.2] }
    match tr.2 with
    | none => { st := st1, trace := ev1 ++ tr.1, err := some PyError.typeError }
    | some ti =>
      { st := st1,
        trace := ev1 ++ tr.1 ++
          push_image env st1 ti.repository ti.tag
            st1.cr_url st1.cr_username st1.cr_password,
        err := none }

/-- The `copy_images` loop over a list of image names; an escaped exception
aborts the remaining images. -/
def copy_images_from (env : Env) (st : DMState) : List String → StepResult
  | [] => { st := st, trace := [], err := none }
  | image :: rest =>
    let r := copy_step env st image
    match r.err with
    | some e => { st := r.st, trace := r.trace, err := some e }
    | none =>
      let r2 := copy_images_from env r.st rest
      { st := r2.st, trace := r.trace ++ r2.trace, err := r2.err }

/-- `copy_images`: iterate pull / tag / push over `self.images_to_replicate`. -/
def copy_images (env : Env) (st : DMState) : StepResult :=
  copy_images_from env st st.images_to_replicate

/-- The ECR initialization method (`DockerManagement`'s AWS branch): read the
local credentials file (only `configparser.ParsingError` is caught and
reported; a missing section or key raises `KeyError`), then exchange for an
authorization token, set `cr_username = "AWS"`, `cr_password` to the decoded
token with every `AWS:` occurrence stripped, and `cr_url` to the destination
registry. -/
def init_ecr (env : Env) (st : DMState) : StepResult :=
  match env.awsParse with
  | AwsParse.parsed keyId secret =>
    let st1 := { st with aws_access_key_id := some keyId,
                         aws_access_secret_key := some secret }
    { st := { st1 with
        cr_username := some "AWS",
        cr_password := some (pyReplace env.ecrDecodedToken "AWS:" ""),
        cr_url := some st1.to_registry },
      trace := [DockerEvent.awsCredRead, DockerEvent.ecrGetToken],
      err := none }
  | AwsParse.parsingError msg =>
    { st := { st with
        cr_username := some "AWS",
        cr_password := some (pyReplace env.ecrDecodedToken "AWS:" ""),
        cr_url := some st.to_registry },
      trace := [DockerEvent.awsCredRead, DockerEvent.secho msg,
                DockerEvent.ecrGetToken],
      err := none }
  | AwsParse.sectionMissing =>
    { st := st, trace := [DockerEvent.awsCredRead],
      err := some PyError.keyError }

/-- The ACR initialization method (`DockerManagement`'s Azure branch): run
`az acr login --name <first DNS label> --expose-token`, store the access
token as password, a null-GUID username, and the destination as `cr_url`. -/
def init_acr (env : Env) (st : DMState) : StepResult :=
  let acr_name := (st.to_registry.splitOn ".").headD ""
  { st := { st with
      cr_password := some env.azAccessToken,
      cr_username := some "00000000-0000-0000-0000-000000000000",
      cr_url := some st.to_registry },
    trace := [DockerEvent.azLoginCmd
      ("az acr login --name " ++ acr_name ++ " --expose-token")],
    err := none }

/-- The attribute values assigned at the top of `__init__`, before URL
validation. -/
def initial_state (cfg : DMConfig) : DMState :=
  { cloud := cfg.cloud
    aws_region := cfg.region
    aws_access_key_id := none
    aws_access_secret_key := none
    cr_password := none
    cr_username := none
    cr_url := none
    show_log := cfg.show_log
    to_registry := cfg.to_registry
    images_to_replicate := cfg.images_to_replicate
    tagged_images := []
    from_registry := none }

/-- `DockerManagement.__init__`: set the plain attributes; if
`validators.url` rejects the source registry, report and return early
(leaving `from_registry` unassigned and performing no cloud setup);
otherwise store the source registry with every `https:\x2f\x2f` occurrence
removed, echo the image list, and run the AWS or Azure credential setup
when requested. -/
def dm_init (env : Env) (cfg : DMConfig) : StepResult :=
  let st0 := initial_state cfg
  if env.urlValid = false then
    { st := st0,
      trace := [DockerEvent.secho "The source registry does not have a valid URL!"],
      err := none }
  else
    let st1 := { st0 with
      from_registry := some (pyReplace cfg.from_registry "https://" "") }
    let evs := [DockerEvent.echoImages st1.images_to_replicate]
    if cfg.cloud = some "aws" then
      let r := init_ecr env st1
      { r with trace := evs ++ r.trace }
    else if cfg.cloud = some "azure" then
      let r := init_acr env st1
      { r with trace := evs ++ r.trace }
    else
      { st := st1, trace := evs, err := none }

/-! ### Trace observers -/

/-- Is the event an `images.push` call? -/
def isPush : DockerEvent → Bool
  | DockerEvent.push _ _ _ => true
  | _ => false

/-- Does the trace contain an `images.push` call? -/
def hasPush (t : List DockerEvent) : Bool := t.any isPush

/-- Is the event a `docker_client.login` call? -/
def isLogin : DockerEvent → Bool
  | DockerEvent.login _ _ _ => true
  | _ => false

/-- Does the trace contain a `docker_client.login` call? -/
def hasLogin (t : List DockerEvent) : Bool := t.any isLogin

/-- Is the event an `images.pull` call? -/
def isPull : DockerEvent → Bool
  | DockerEvent.pull _ => true
  | _ => false

/-- Does the trace contain an `images.pull` call? -/
def hasPull (t : List DockerEvent) : Bool := t.any isPull

/-- Is the event an `images.pull` of exactly `ref`? -/
def isPullOfRef (ref : String) : DockerEvent → Bool
  | DockerEvent.pull r => r == ref
  | _ => false

/-- Does the trace contain an `images.pull` of exactly `ref`? -/
def hasPullOf (t : List DockerEvent) (ref : String) : Bool :=
  t.any (isPullOfRef ref)

/-- Does the trace contain a `tag` call on the local image? -/
def hasTagOp (t : List DockerEvent) : Bool :=
  t.any fun e =>
    match e with
    | DockerEvent.tagOp _ _ _ => true
    | _ => false

/-- Every login and push in the trace carries exactly the credential triple
stored in `st` (`cr_username`, `cr_password`, `cr_url`). -/
def credsFrom (st : DMState) (e : DockerEvent) : Bool :=
  match e with
  | DockerEvent.login u p r =>
    decide (u = st.cr_username ∧ p = st.cr_password ∧ r = st.cr_url)
  | DockerEvent.push _ _ a =>
    decide (a = some (st.cr_username.getD "", st.cr_password.getD ""))
  | _ => true

/-- The trace contains no credential-acquisition action (credentials-file
read, ECR token exchange, or `az acr login` subprocess). -/
def noCredAcquisition (t : List DockerEvent) : Bool :=
  t.all fun e =>
    match e with
    | DockerEvent.awsCredRead => false
    | DockerEvent.ecrGetToken => false
    | DockerEvent.azLoginCmd _ => false
    | _ => true

/-- Every push event carries exactly the auth pair `(u, p)` (vacuous for
traces with no push). -/
def pushAuthMatches (t : List DockerEvent) (u p : Option String) : Bool :=
  t.all fun e =>
    match e with
    | DockerEvent.push _ _ a => decide (a = some (u.getD "", p.getD ""))
    | _ => true

/-- Transformation the spec describes for the stored source registry: the
leading `https:\x2f\x2f` prefix stripped and no other change.  Stated on the
character list so that it is kernel-evaluable. -/
def spec_strip_leading_https (s : String) : String :=
  if ("https://".data).isPrefixOf s.data then String.mk (s.data.drop 8) else s

/-! ### Concrete fixtures used by witnesses and counterexamples -/

/-- An oracle where everything succeeds except that the AWS credentials file
is malformed (`ParsingError`). -/
def sampleEnv : Env :=
  { urlValid := true
    awsParse := AwsParse.parsingError "bad-credentials-file"
    ecrDecodedToken := "AWS:token123"
    azAccessToken := "aztoken"
    tagOk := fun _ _ _ => true
    pullLog := "pulled"
    pushLog := "pushed" }

/-- Oracle whose `image.tag` call reports failure. -/
def failTagEnv : Env := { sampleEnv with tagOk := fun _ _ _ => false }

/-- Oracle where `validators.url` rejects the source registry. -/
def invalidUrlEnv : Env := { sampleEnv with urlValid := false }

/-- A constructor argument set with no cloud configured. -/
def sampleCfg : DMConfig :=
  { from_registry := "https://source.io"
    to_registry := "myregistry.io"
    images_to_replicate := ["app/service:v1"]
    region := "us-east-1"
    cloud := none
    show_log := false }

/-- Constructor arguments selecting the AWS branch. -/
def awsCfg : DMConfig := { sampleCfg with cloud := some "aws" }

/-- Constructor arguments whose source URL contains `https:\x2f\x2f` both as
the leading scheme and inside the query string. -/
def cexCfg : DMConfig :=
  { sampleCfg with from_registry := "https://a.com/?x=https://b.com" }

/-- An object state as left by a successful cloud-free `__init__`. -/
def sampleState : DMState :=
  { cloud := none
    aws_region := "us-east-1"
    aws_access_key_id := none
    aws_access_secret_key := none
    cr_password := none
    cr_username := none
    cr_url := none
    show_log := false
    to_registry := "myregistry.io"
    images_to_replicate := ["app/service:v1"]
    tagged_images := []
    from_registry := some "source.io" }

/-- `sampleState` with an empty image list. -/
def emptyState : DMState := { sampleState with images_to_replicate := [] }

/-! ### Lemmas about the `str.replace` model -/

/-- A list is a `isPrefixOf`-prefix of itself followed by anything. -/
theorem isPrefixOf_append_self (l t : List Char) :
    l.isPrefixOf (l ++ t) = true := by
  induction l with
  | nil => simp [List.isPrefixOf]
  | cons a as ih => simp [List.isPrefixOf, ih]

/-- Replacing a single character `a` by `b` maps every occurrence, i.e. it is
exactly a character map, for any sufficient fuel. -/
theorem replaceFuel_single (a b : Char) (l : List Char) (fuel : Nat)
    (h : l.length ≤ fuel) :
    replaceFuel [a] [b] fuel l = l.map fun c => if c = a then b else c := by
  induction l generalizing fuel with
  | nil => cases fuel <;> simp [replaceFuel]
  | cons c rest ih =>
    cases fuel with
    | zero => simp at h
    | succ f =>
      have hr : rest.length ≤ f := by simpa using h
      by_cases hca : c = a
      · subst hca
        simp [replaceFuel, List.isPrefixOf, ih f hr]
      · have hac : (a == c) = false := by
          simp [beq_iff_eq]
          exact fun he => hca he.symm
        simp [replaceFuel, List.isPrefixOf, hac, hca, ih f hr]

/-- If `pat` does not occur in `l`, the replacement leaves `l` unchanged
(with any fuel). -/
theorem replaceFuel_not_occur (pat rep : List Char) (l : List Char)
    (fuel : Nat) (h : hasOccur pat l = false) :
    replaceFuel pat rep fuel l = l := by
  induction l generalizing fuel with
  | nil => cases fuel <;> simp [replaceFuel]
  | cons c rest ih =>
    simp only [hasOccur, Bool.or_eq_false_iff] at h
    cases fuel with
    | zero => simp [replaceFuel]
    | succ f => simp [replaceFuel, h.1, ih f h.2]

/-- When the scan stands at an occurrence of the (nonempty) pattern, the
replacement consumes it and continues after it. -/
theorem replaceFuel_head_match (p : Char) (ps rep t : List Char) (fuel : Nat) :
    replaceFuel (p :: ps) rep (fuel + 1) (p :: (ps ++ t)) =
      rep ++ replaceFuel (p :: ps) rep fuel t := by
  have hpre : (p :: ps).isPrefixOf (p :: (ps ++ t)) = true := by
    simp [List.isPrefixOf, isPrefixOf_append_self]
  simp [replaceFuel, hpre, List.drop_left]

/-- For a string of the form `https:\x2f\x2f` followed by a tail in which the
scheme string never occurs again, the Python replace-all coincides with
stripping the leading prefix. -/
theorem pyReplace_strip_all_prefix (t : String)
    (h : hasOccur "https://".data t.data = false) :
    pyReplace ("https://" ++ t) "https://" "" = t := by
  have hdata : ("https://" ++ t).data = "https://".data ++ t.data :=
    String.data_append _ _
  have hlen : ("https://" ++ t).data.length = (7 + t.data.length) + 1 := by
    rw [hdata, List.length_append]
    show 8 + t.data.length = (7 + t.data.length) + 1
    omega
  have hsplit : ("https://" ++ t).data =
      'h' :: (['t', 't', 'p', 's', ':', '/', '/'] ++ t.data) := by
    rw [hdata]; rfl
  show (if ("https://" : String).data.isEmpty then "https://" ++ t
        else String.mk (replaceFuel "https://".data "".data
          ("https://" ++ t).data.length ("https://" ++ t).data)) = t
  rw [if_neg (by decide)]
  rw [hlen, hsplit]
  rw [show ("https://".data) = 'h' :: ['t', 't', 'p', 's', ':', '/', '/'] from rfl]
  rw [replaceFuel_head_match]
  rw [replaceFuel_not_occur _ _ _ _ h]
  rfl

/-- Replacing the one-character pattern `pat = [a]` by `rep = [b]` is exactly
a character map over the string's data. -/
theorem pyReplace_single_data (a b : Char) (s pat rep : String)
    (hp : pat.data = [a]) (hr : rep.data = [b]) :
    (pyReplace s pat rep).data = s.data.map fun c => if c = a then b else c := by
  unfold pyReplace
  rw [hp, hr]
  rw [if_neg (by simp)]
  show replaceFuel [a] [b] s.data.length s.data = _
  exact replaceFuel_single a b s.data s.data.length (Nat.le_refl _)

/-! ### Helper lemmas about the modelled methods -/

/-- The ECR setup never touches `from_registry`. -/
theorem init_ecr_from_registry (env : Env) (st : DMState) :
    (init_ecr env st).st.from_registry = st.from_registry := by
  cases h : env.awsParse <;> simp [init_ecr, h]

/-- The ACR setup never touches `from_registry`. -/
theorem init_acr_from_registry (env : Env) (st : DMState) :
    (init_acr env st).st.from_registry = st.from_registry := by
  simp [init_acr]

/-- After a successful URL validation, the stored source registry is the
input with every `https:\x2f\x2f` occurrence removed, whatever the cloud. -/
theorem dm_init_from_registry (env : Env) (cfg : DMConfig)
    (h : env.urlValid = true) :
    (dm_init env cfg).st.from_registry =
      some (pyReplace cfg.from_registry "https://" "") := by
  by_cases h1 : cfg.cloud = some "aws"
  · simp [dm_init, h, h1, init_ecr_from_registry]
  · by_cases h2 : cfg.cloud = some "azure"
    · simp [dm_init, h, h1, h2, init_acr_from_registry]
    · simp [dm_init, h, h1, h2]

/-- `credsFrom` only looks at the three credential fields of the state. -/
theorem credsFrom_eq_of (st st' : DMState)
    (h1 : st.cr_username = st'.cr_username)
    (h2 : st.cr_password = st'.cr_password)
    (h3 : st.cr_url = st'.cr_url) :
    credsFrom st = credsFrom st' := by
  funext e
  cases e <;> simp [credsFrom, h1, h2, h3]

/-- Every event emitted by a `push_image` call that receives exactly the
credential triple of state `stB` is credentialed from `stB`, and no
credential acquisition happens during it. -/
theorem push_image_credsFrom (env : Env) (stP stB : DMState)
    (image tag : String) (r u p : Option String)
    (hu : u = stB.cr_username) (hp : p = stB.cr_password)
    (hr : r = stB.cr_url) :
    (push_image env stP image tag r u p).all (credsFrom stB) = true ∧
    noCredAcquisition (push_image env stP image tag r u p) = true := by
  subst hu hp hr
  cases hu2 : stB.cr_username <;> cases hp2 : stB.cr_password <;>
    cases hr2 : stB.cr_url <;> cases hs : stP.show_log <;>
      simp [push_image, credsFrom, noCredAcquisition, hu2, hp2, hr2, hs]

/-- One `copy_step` never changes the credential fields. -/
theorem copy_step_cr (env : Env) (st : DMState) (image : String) :
    (copy_step env st image).st.cr_username = st.cr_username ∧
    (copy_step env st image).st.cr_password = st.cr_password ∧
    (copy_step env st image).st.cr_url = st.cr_url := by
  cases hf : st.from_registry with
  | none => simp [copy_step, hf]
  | some fromReg =>
    cases htr : (tag_image env st image fromReg st.to_registry).2 with
    | none =>
      simp only [copy_step, hf]
      rw [htr]
      simp
    | some ti =>
      simp only [copy_step, hf]
      rw [htr]
      simp

/-- Every event of one `copy_step` is credentialed from the starting state,
and no credential acquisition happens during it. -/
theorem copy_step_trace_creds (env : Env) (st : DMState) (image : String) :
    (copy_step env st image).trace.all (credsFrom st) = true ∧
    noCredAcquisition (copy_step env st image).trace = true := by
  cases hf : st.from_registry with
  | none => simp [copy_step, hf, noCredAcquisition]
  | some fromReg =>
    cases htr : (tag_image env st image fromReg st.to_registry).2 with
    | none =>
      simp only [copy_step, hf]
      rw [htr]
      simp [pull_image, tag_image, credsFrom, noCredAcquisition]
    | some ti =>
      simp only [copy_step, hf]
      rw [htr]
      constructor
      · simp only [List.all_append, Bool.and_eq_true]
        exact ⟨⟨by simp [pull_image, credsFrom],
                by simp [tag_image, credsFrom]⟩,
              (push_image_credsFrom env _ st ti.repository ti.tag
                st.cr_url st.cr_username st.cr_password rfl rfl rfl).1⟩
      · simp only [noCredAcquisition, List.all_append, Bool.and_eq_true]
        exact ⟨⟨by simp [pull_image], by simp [tag_image]⟩,
              (push_image_credsFrom env _ st ti.repository ti.tag
                st.cr_url st.cr_username st.cr_password rfl rfl rfl).2⟩

/-- Over any remaining image list, the loop keeps the credential fields
unchanged and every emitted login/push carries the starting state's triple,
with no credential acquisition. -/
theorem copy_images_from_creds (env : Env) (l : List String) (st : DMState) :
    (copy_images_from env st l).trace.all (credsFrom st) = true ∧
    noCredAcquisition (copy_images_from env st l).trace = true ∧
    (copy_images_from env st l).st.cr_username = st.cr_username ∧
    (copy_images_from env st l).st.cr_password = st.cr_password ∧
    (copy_images_from env st l).st.cr_url = st.cr_url := by
  induction l generalizing st with
  | nil => simp [copy_images_from, noCredAcquisition]
  | cons image rest ih =>
    have hstep := copy_step_trace_creds env st image
    have hcr := copy_step_cr env st image
    cases he : (copy_step env st image).err with
    | some e =>
      simp only [copy_images_from]
      rw [he]
      exact ⟨hstep.1, hstep.2, hcr.1, hcr.2.1, hcr.2.2⟩
    | none =>
      have ihr := ih (copy_step env st image).st
      have hagree : credsFrom (copy_step env st image).st = credsFrom st :=
        credsFrom_eq_of _ _ hcr.1 hcr.2.1 hcr.2.2
      simp only [copy_images_from]
      rw [he]
      simp only [List.all_append, noCredAcquisition, Bool.and_eq_true]
      refine ⟨⟨hstep.1, ?_⟩, ⟨?_, ?_⟩, ?_, ?_, ?_⟩
      · rw [← hagree]; exact ihr.1
      · exact hstep.2
      · exact ihr.2.1
      · rw [ihr.2.2.1, hcr.1]
      · rw [ihr.2.2.2.1, hcr.2.1]
      · rw [ihr.2.2.2.2, hcr.2.2]

/-- Applying the slash and colon replacements in sequence maps every
character, turning each slash and each colon into a hyphen. -/
theorem slash_colon_map (image : String) :
    (pyReplace (pyReplace image "/" "-") ":" "-").data =
      image.data.map fun c => if c = '/' ∨ c = ':' then '-' else c := by
  rw [pyReplace_single_data ':' '-' _ ":" "-" rfl rfl,
      pyReplace_single_data '/' '-' image "/" "-" rfl rfl,
      List.map_map]
  have hfg : ((fun c => if c = ':' then '-' else c) ∘
      fun c => if c = '/' then '-' else c) =
      fun c : Char => if c = '/' ∨ c = ':' then '-' else c := by
    funext c
    by_cases h1 : c = '/'
    · subst h1; decide
    · by_cases h2 : c = ':'
      · subst h2; decide
      · simp [Function.comp, h1, h2]
  rw [hfg]

/-! ### The claims -/

/-- Claim C1 (code defect): the docker push call inside `push_image` is
guarded by `auth_config is not None`, so whenever any of registry, username
or password is missing the method performs no push at all — the trace stops
at the `Pushing image:` echo.  In particular a run with no cloud configured
(all credential fields `None`, as `copy_images` then passes them) pulls and
tags but never pushes, contradicting the claim that the push still happens
without explicit authentication and the class's documented purpose of
copying images between registries. -/
theorem push_skipped_without_full_credentials :
    hasPush (push_image sampleEnv sampleState
      "myregistry.io/app/service:v1" "latest" none none none) = false ∧
    push_image sampleEnv sampleState "myregistry.io/app/service:v1" "latest"
      none (some "user") (some "pw") = [DockerEvent.echo "Pushing image:"] ∧
    hasPush (copy_images sampleEnv sampleState).trace = false := by
  refine ⟨by decide, by decide, by decide⟩

/-- Claim C2: when the docker tag call reports failure, `tag_image` returns
a falsy value which `copy_images` appends to `tagged_images` and uses
unchecked; the iteration proceeds past the tag step and fails only at the
subsequent push call (a `TypeError` when subscripting the falsy result):
the pull and tag attempts happened, and no push was performed. -/
theorem tag_failure_unchecked_surfaces_at_push (env : Env) (st : DMState)
    (fromReg image : String)
    (h1 : st.from_registry = some fromReg)
    (h2 : env.tagOk (fromReg ++ "/" ++ image)
        (derive_target st.cloud image st.to_registry).1
        (derive_target st.cloud image st.to_registry).2 = false) :
    (copy_step env st image).err = some PyError.typeError ∧
    (copy_step env st image).st.tagged_images = st.tagged_images ++ [none] ∧
    hasPull (copy_step env st image).trace = true ∧
    hasTagOp (copy_step env st image).trace = true ∧
    hasPush (copy_step env st image).trace = false := by
  have htr : (tag_image env st image fromReg st.to_registry).2 = none := by
    simp [tag_image, h2]
  simp only [copy_step, h1]
  rw [htr]
  simp [pull_image, tag_image, hasPull, isPull, hasTagOp, hasPush, isPush]

/-- Witness for claim C2 at a concrete state and a failing tag oracle. -/
theorem tag_failure_unchecked_witness :
    (copy_step failTagEnv sampleState "app/service:v1").err =
        some PyError.typeError ∧
    (copy_step failTagEnv sampleState "app/service:v1").st.tagged_images =
        sampleState.tagged_images ++ [none] ∧
    hasPull (copy_step failTagEnv sampleState "app/service:v1").trace = true ∧
    hasTagOp (copy_step failTagEnv sampleState "app/service:v1").trace = true ∧
    hasPush (copy_step failTagEnv sampleState "app/service:v1").trace = false :=
  tag_failure_unchecked_surfaces_at_push failTagEnv sampleState "source.io"
    "app/service:v1" rfl rfl

/-- Claim C3 counterexample: Python `replace` removes every occurrence of
the scheme string, not only a leading prefix.  The well-formed URL
`https:\x2f\x2fa.com\x2f?x=https:\x2f\x2fb.com` (the scheme also appears in
the query value, which `validators.url` accepts) is stored with both
occurrences removed, which differs from stripping only the leading prefix. -/
theorem source_registry_strip_cex :
    (dm_init sampleEnv cexCfg).st.from_registry = some "a.com/?x=b.com" ∧
    spec_strip_leading_https cexCfg.from_registry = "a.com/?x=https://b.com" ∧
    ("a.com/?x=b.com" : String) ≠ "a.com/?x=https://b.com" := by
  refine ⟨by decide, by decide, by decide⟩

/-- Claim C3 (amended): for every source URL accepted by the validator the
stored source registry is the input with every occurrence of the scheme
string removed; when the scheme occurs only as the leading prefix this
coincides with stripping that prefix and changing nothing else. -/
theorem source_registry_replace_all_https (env : Env) (cfg : DMConfig)
    (t : String) (h : env.urlValid = true) :
    (dm_init env cfg).st.from_registry =
      some (pyReplace cfg.from_registry "https://" "") ∧
    (cfg.from_registry = "https://" ++ t →
      hasOccur "https://".data t.data = false →
      (dm_init env cfg).st.from_registry = some t) := by
  refine ⟨dm_init_from_registry env cfg h, fun h2 h3 => ?_⟩
  rw [dm_init_from_registry env cfg h, h2, pyReplace_strip_all_prefix t h3]

/-- Witness for claim C3 on a prefix-only URL. -/
theorem source_registry_replace_all_https_witness :
    (dm_init sampleEnv sampleCfg).st.from_registry = some "source.io" :=
  (source_registry_replace_all_https sampleEnv sampleCfg "source.io" rfl).2
    rfl (by decide)

/-- Claim C4: with cloud `aws`, the derived repository is the destination
registry unchanged, and the derived tag is the image name with every slash
and every colon replaced by a hyphen; for `app\x2fservice:v1` the tag is
`app-service-v1`. -/
theorem aws_tag_derivation (image registry : String) :
    derive_target (some "aws") image registry =
      (registry, pyReplace (pyReplace image "/" "-") ":" "-") ∧
    (derive_target (some "aws") image registry).2.data =
      image.data.map (fun c => if c = '/' ∨ c = ':' then '-' else c) ∧
    derive_target (some "aws") "app/service:v1" "myregistry.io" =
      ("myregistry.io", "app-service-v1") := by
  have h0 : derive_target (some "aws") image registry =
      (registry, pyReplace (pyReplace image "/" "-") ":" "-") := by
    simp [derive_target]
  refine ⟨h0, ?_, by decide⟩
  rw [h0]
  exact slash_colon_map image

/-- Claim C5: with any cloud other than `aws` (including none), the derived
repository is `destination/original-image-name` and the tag is the literal
`latest`. -/
theorem generic_tag_derivation (cloud : Option String)
    (image registry : String) (h : cloud ≠ some "aws") :
    derive_target cloud image registry =
      (registry ++ "/" ++ image, "latest") := by
  simp [derive_target, h]

/-- Witness for claim C5 at the spec's concrete example. -/
theorem generic_tag_derivation_witness :
    derive_target none "app/service:v1" "myregistry.io" =
      ("myregistry.io/app/service:v1", "latest") := by
  rw [generic_tag_derivation none "app/service:v1" "myregistry.io"
    (by decide)]
  decide

/-- Claim C6: over a whole `copy_images` run, every login and every push in
the trace carries exactly the credential triple stored in the starting
state, the run performs no credential acquisition of its own, and the
credential fields are unchanged at the end — the triple obtained at
initialization is reused for every image. -/
theorem push_credentials_uniform (env : Env) (st : DMState) :
    (copy_images env st).trace.all (credsFrom st) = true ∧
    noCredAcquisition (copy_images env st).trace = true ∧
    (copy_images env st).st.cr_username = st.cr_username ∧
    (copy_images env st).st.cr_password = st.cr_password ∧
    (copy_images env st).st.cr_url = st.cr_url :=
  copy_images_from_creds env st.images_to_replicate st

/-- Claim C7: with an invalid source URL, `__init__` only reports the error:
no exception, no cloud credential setup of any kind in the trace, all
credential fields and `from_registry` left unset — and any later copy step
fails immediately with `AttributeError`. -/
theorem invalid_url_no_credential_setup (env : Env) (cfg : DMConfig)
    (h : env.urlValid = false) :
    ((dm_init env cfg).err = none ∧
     (dm_init env cfg).trace =
       [DockerEvent.secho "The source registry does not have a valid URL!"] ∧
     (dm_init env cfg).st.cr_username = none ∧
     (dm_init env cfg).st.cr_password = none ∧
     (dm_init env cfg).st.cr_url = none ∧
     (dm_init env cfg).st.aws_access_key_id = none ∧
     (dm_init env cfg).st.aws_access_secret_key = none ∧
     (dm_init env cfg).st.from_registry = none) ∧
    ∀ env2 image,
      (copy_step env2 (dm_init env cfg).st image).err =
        some PyError.attributeError := by
  have hd : dm_init env cfg =
      { st := initial_state cfg,
        trace :=
          [DockerEvent.secho "The source registry does not have a valid URL!"],
        err := none } := by
    simp [dm_init, h]
  rw [hd]
  refine ⟨⟨rfl, rfl, rfl, rfl, rfl, rfl, rfl, rfl⟩, fun env2 image => ?_⟩
  simp [copy_step, initial_state]

/-- Witness for claim C7: after a rejected URL, the copy step raises. -/
theorem invalid_url_witness :
    (copy_step sampleEnv (dm_init invalidUrlEnv sampleCfg).st
        "app/service:v1").err = some PyError.attributeError :=
  (invalid_url_no_credential_setup invalidUrlEnv sampleCfg rfl).2
    sampleEnv "app/service:v1"

/-- Claim C8: when parsing the AWS credentials file raises
`configparser.ParsingError`, `__init__` does not raise: the error is
reported, the access-key fields stay unset, and the run continues into the
token exchange, setting the registry credential triple. -/
theorem aws_parse_error_continues_unset (env : Env) (cfg : DMConfig)
    (msg : String) (h1 : env.urlValid = true) (h2 : cfg.cloud = some "aws")
    (h3 : env.awsParse = AwsParse.parsingError msg) :
    (dm_init env cfg).err = none ∧
    (dm_init env cfg).st.aws_access_key_id = none ∧
    (dm_init env cfg).st.aws_access_secret_key = none ∧
    (dm_init env cfg).trace =
      [DockerEvent.echoImages cfg.images_to_replicate,
       DockerEvent.awsCredRead, DockerEvent.secho msg,
       DockerEvent.ecrGetToken] ∧
    (dm_init env cfg).st.cr_username = some "AWS" ∧
    (dm_init env cfg).st.cr_password =
      some (pyReplace env.ecrDecodedToken "AWS:" "") ∧
    (dm_init env cfg).st.cr_url = some cfg.to_registry := by
  simp [dm_init, h1, h2, init_ecr, h3, initial_state]

/-- Witness for claim C8 at a concrete malformed credentials file. -/
theorem aws_parse_error_witness :
    (dm_init sampleEnv awsCfg).err = none ∧
    (dm_init sampleEnv awsCfg).st.aws_access_key_id = none ∧
    (dm_init sampleEnv awsCfg).st.aws_access_secret_key = none ∧
    (dm_init sampleEnv awsCfg).trace =
      [DockerEvent.echoImages awsCfg.images_to_replicate,
       DockerEvent.awsCredRead, DockerEvent.secho "bad-credentials-file",
       DockerEvent.ecrGetToken] ∧
    (dm_init sampleEnv awsCfg).st.cr_username = some "AWS" ∧
    (dm_init sampleEnv awsCfg).st.cr_password =
      some (pyReplace sampleEnv.ecrDecodedToken "AWS:" "") ∧
    (dm_init sampleEnv awsCfg).st.cr_url = some awsCfg.to_registry :=
  aws_parse_error_continues_unset sampleEnv awsCfg "bad-credentials-file"
    rfl rfl rfl

/-- Claim C9: with an empty image list, `copy_images` performs no docker
action at all, changes nothing, and raises nothing. -/
theorem empty_image_list_no_ops (env : Env) (st : DMState)
    (h : st.images_to_replicate = []) :
    copy_images env st = { st := st, trace := [], err := none } := by
  unfold copy_images
  rw [h]
  rfl

/-- Witness for claim C9. -/
theorem empty_image_list_witness :
    copy_images sampleEnv emptyState =
      { st := emptyState, trace := [], err := none } :=
  empty_image_list_no_ops sampleEnv emptyState rfl

/-- Claim C10: `pull_image` logs in exactly when at least one of username
and password is not `None` (so also when just one is given), and in every
case it attempts the fetch of `registry/image`. -/
theorem pull_login_condition (env : Env) (registry image : String)
    (u p : Option String) :
    hasLogin (pull_image env registry image u p) = (u.isSome || p.isSome) ∧
    hasPullOf (pull_image env registry image u p)
      (registry ++ "/" ++ image) = true := by
  cases u <;> cases p <;>
    simp [pull_image, hasLogin, isLogin, hasPullOf, isPullOfRef]
